import Mathlib

/-!
Verification development for the WeChat summary-bot triage and escalation
pipeline (deduplication, keyword pre-filter, urgency classification fallback,
context assembly, threshold-gated dispatch, digest upsert).

The Python sources are embedded shallowly:
  * `datetime` values are modelled as `Int` seconds;
  * keyword weights (Python floats) are modelled as rationals;
  * the md5 digest is kept abstract as a `String → String` parameter, since
    both fingerprint implementations call the identical library digest on the
    normalized text;
  * fallible calls become explicit outcome parameters, and caught exceptions
    become `Except` values or dedicated outcome constructors.
-/

namespace WeChatSummaryBot

/-! ## Python string primitives -/

/-- Characters stripped by Python `str.strip()` (ASCII whitespace set). -/
def isPySpace (c : Char) : Bool :=
  c = ' ' || c = '\t' || c = '\n' || c = '\r' || c = '\x0b' || c = '\x0c'

def pyStripList (l : List Char) : List Char :=
  ((l.dropWhile isPySpace).reverse.dropWhile isPySpace).reverse

/-- Model of Python `str.strip()`. -/
def pyStrip (s : String) : String :=
  ⟨pyStripList s.data⟩

/-! ## Data model (`models/data_models.py`) -/

/-- The four extraction-failure sentinels excluded from fingerprinting, from
`Message.__post_init__` and `DeduplicationEngine.calculate_content_hash`. -/
def failureSentinels : List String :=
  ["[图片OCR失败]", "[语音获取失败]", "[图片处理异常]", "[语音处理异常]"]

/-- `Message` dataclass; `timestamp` is seconds, `content_hash` is the derived
fingerprint field. -/
structure Message where
  message_id : String
  chat_id : String
  chat_name : String
  sender_id : String
  sender_name : String
  message_type : String
  content : String
  timestamp : Int
  extracted_text : String := ""
  content_hash : String := ""
  is_important : Bool := false
  value_score : Int := 0
deriving Repr, DecidableEq

/-- Fingerprint computed in `Message.__post_init__` (data_models.py, lines
26-36), as a function of the two fields it reads and of the digest it calls:
parts start as the primary content, the extracted text is appended when truthy
and not a failure sentinel, the parts are joined by a space, stripped, and
digested. -/
def postInitContentHash (digest : String → String) (content extracted_text : String) : String :=
  let content_parts :=
    [content] ++
      (if extracted_text ≠ "" ∧ ¬ (extracted_text ∈ failureSentinels)
       then [extracted_text] else [])
  digest (pyStrip (String.intercalate (" ") content_parts))

/-- Fingerprint computed in `DeduplicationEngine.calculate_content_hash`
(deduplication.py, lines 40-50), again as a function of the message fields it
reads and the digest it calls. -/
def calculate_content_hash (digest : String → String) (content extracted_text : String) : String :=
  let content_parts :=
    [content] ++
      (if extracted_text ≠ "" ∧ ¬ (extracted_text ∈ failureSentinels)
       then [extracted_text] else [])
  digest (pyStrip (String.intercalate (" ") content_parts))

/-! ## Deduplication store (`core/deduplication.py`) -/

/-- Row of the `message_dedup` table. -/
structure DedupRecord where
  content_hash : String
  first_message_id : String
  occurrence_count : Nat
  last_seen : Int
deriving Repr, DecidableEq

/-- The dedup ledger; `content_hash` is UNIQUE, which the operations below
maintain and rely on. -/
abbrev DedupTable := List DedupRecord

/-- The 24-hour active window used by `is_duplicate`, in seconds. -/
def dedupWindowSeconds : Int := 24 * 3600

/-- `DeduplicationEngine.is_duplicate` (deduplication.py, lines 52-94).
Empty (whitespace-only) primary content short-circuits to not-duplicate with
no ledger access.  Otherwise: a row with the fingerprint whose `last_seen` is
inside the window is bumped (count + 1, `last_seen` refreshed) and the message
is reported duplicate; with no such row the code INSERTs a fresh record — if
an expired row with the same hash still exists the INSERT violates the UNIQUE
constraint, the exception handler fails open, and the ledger is unchanged. -/
def is_duplicate (digest : String → String) (tbl : DedupTable) (msg : Message)
    (now : Int) : Bool × DedupTable :=
  if pyStrip msg.content = "" then
    (false, tbl)
  else
    let h := calculate_content_hash digest msg.content msg.extracted_text
    let cutoff := now - dedupWindowSeconds
    if tbl.any (fun r => r.content_hash = h && cutoff < r.last_seen) then
      (true,
       tbl.map (fun r =>
         if r.content_hash = h then
           { r with occurrence_count := r.occurrence_count + 1, last_seen := now }
         else r))
    else if tbl.any (fun r => r.content_hash = h) then
      (false, tbl)
    else
      (false, tbl ++ [⟨h, msg.message_id, 1, now⟩])

/-! ## Message store (`core/database.py`) -/

/-- `DatabaseManager.save_message` (database.py, lines 179-202): INSERT OR
REPLACE keyed on the UNIQUE `message_id`; a storage error is caught and
reported as `false` with the table unchanged.  The chat-info bookkeeping
(`_update_chat_info`) touches only the `chats` table, which no claim
observes, and is omitted. -/
def save_message (tbl : List Message) (msg : Message) (storageOk : Bool) :
    Bool × List Message :=
  if storageOk then
    (true, tbl.filter (fun m => m.message_id ≠ msg.message_id) ++ [msg])
  else
    (false, tbl)

/-- Timestamp order used by the SQL `ORDER BY timestamp ASC`. -/
def tsLe (a b : Message) : Prop := a.timestamp ≤ b.timestamp

instance : DecidableRel tsLe := fun a b => inferInstanceAs (Decidable (a.timestamp ≤ b.timestamp))

instance : IsTotal Message tsLe := ⟨fun a b => Int.le_total a.timestamp b.timestamp⟩

instance : IsTrans Message tsLe := ⟨fun _ _ _ hab hbc => le_trans hab hbc⟩

/-- Result set of the query in `get_messages_by_date_range` before the LIMIT
clause: rows of the conversation whose timestamp lies in the inclusive
BETWEEN range, sorted ascending by timestamp. -/
def dateRangeRows (tbl : List Message) (chat_id : String) (start_date end_date : Int) :
    List Message :=
  List.insertionSort tsLe
    (tbl.filter (fun m =>
      m.chat_id = chat_id && start_date ≤ m.timestamp && m.timestamp ≤ end_date))

/-- `DatabaseManager.get_messages_by_date_range` (database.py, lines 216-250):
`ORDER BY timestamp ASC` with `LIMIT ?` appended only when `limit` is truthy
(Python `if limit:` — so `None` and `0` both mean no LIMIT clause). -/
def get_messages_by_date_range (tbl : List Message) (chat_id : String)
    (start_date end_date : Int) (limit : Option Nat) : List Message :=
  let rows := dateRangeRows tbl chat_id start_date end_date
  match limit with
  | none => rows
  | some n => if n = 0 then rows else rows.take n

/-! ## Message collector pipeline (`core/message_collector.py`) -/

/-- Shared persistent state seen by `MessageCollector.process_message`. -/
structure PipelineState where
  dedup : DedupTable
  messages : List Message
deriving Repr, DecidableEq

/-- Terminal branch taken by `process_message`. -/
inductive ProcessOutcome where
  | duplicateFiltered
  | saveFailed
  | processed
deriving Repr, DecidableEq

/-- Observable effects of one `process_message` call. -/
structure ProcessResult where
  outcome : ProcessOutcome
  escalationRan : Bool
  state : PipelineState
deriving Repr, DecidableEq

/-- `MessageCollector.process_message` (message_collector.py, lines 246-270):
duplicate check first — a duplicate returns immediately (only the statistics
counter moves); then the message is stored, a failed store returns; then the
escalation engine (`check_and_process`) runs. -/
def process_message (digest : String → String) (st : PipelineState) (msg : Message)
    (now : Int) (storageOk : Bool) : ProcessResult :=
  let (dup, dedup') := is_duplicate digest st.dedup msg now
  if dup then
    { outcome := .duplicateFiltered, escalationRan := false
      state := { dedup := dedup', messages := st.messages } }
  else
    let (saved, messages') := save_message st.messages msg storageOk
    if saved then
      { outcome := .processed, escalationRan := true
        state := { dedup := dedup', messages := messages' } }
    else
      { outcome := .saveFailed, escalationRan := false
        state := { dedup := dedup', messages := messages' } }

/-! ## Urgency classifier (`core/ai_service.py`) -/

/-- `KeywordConfig` dataclass; the float `weight` is modelled as a rational. -/
structure KeywordConfig where
  keyword : String
  category : String
  weight : ℚ := 1
  is_active : Bool := true
deriving Repr, DecidableEq

/-- Python `int()` on a (rational-modelled) float: truncation toward zero. -/
def pyTrunc (q : ℚ) : ℤ := Int.tdiv q.num (q.den : ℤ)

/-- Python `round()` on a (rational-modelled) float: round half to even.  Used
only on the specification side, to state the rounding the spec ascribes to the
fallback score. -/
def pyRound (q : ℚ) : ℤ :=
  let fl : ℤ := Int.fdiv q.num (q.den : ℤ)
  let frac : ℚ := q - fl
  if frac < 1/2 then fl
  else if 1/2 < frac then fl + 1
  else if fl % 2 = 0 then fl else fl + 1

/-- JSON value as produced by a successful `json.loads`. -/
inductive PyJson where
  | null
  | bool (b : Bool)
  | num (q : ℚ)
  | str (s : String)
  | arr (xs : List PyJson)
  | obj (fields : List (String × PyJson))

/-- Python truthiness of a JSON value, as evaluated by `if value:`. -/
def pyTruthy : PyJson → Bool
  | .null => false
  | .bool b => b
  | .num q => q ≠ 0
  | .str s => s ≠ ""
  | .arr xs => !xs.isEmpty
  | .obj fields => !fields.isEmpty

/-- Python `dict.get(key, default)` on a parsed JSON object (keys unique after
`json.loads`). -/
def objGetD (fields : List (String × PyJson)) (k : String) (d : PyJson) : PyJson :=
  match List.lookup k fields with
  | some v => v
  | none => d

/-- Python `int(value)` on a JSON value: floats truncate toward zero, bools
become 0/1, numeric strings parse (surrounding whitespace allowed), anything
else raises (`ValueError`/`TypeError`). -/
def pyIntOf : PyJson → Except Unit Int
  | .num q => .ok (pyTrunc q)
  | .bool b => .ok (if b then 1 else 0)
  | .str s =>
      match (pyStrip s).toInt? with
      | some n => .ok n
      | none => .error ()
  | _ => .error ()

/-- `UrgencyAnalysisResult` dataclass.  The code stores `is_urgent` raw and
only ever observes it through Python truthiness at the dispatch gate, so the
field is collapsed to that truthiness here; `urgency_score` goes through
`int()`, so it is an integer; the remaining fields are stored raw. -/
structure UrgencyAnalysisResult where
  is_urgent : Bool
  urgency_score : Int
  push_type : PyJson
  push_message_ids : PyJson
  summary : PyJson
  key_factors : PyJson

/-- Construction of the result from a parsed reply (ai_service.py, lines
110-118).  A non-object reply raises `AttributeError` at `result_data.get`;
a non-convertible `urgency_score` raises inside `int()`.  Either error escapes
the inner `try` (which catches only `JSONDecodeError`). -/
def parseUrgencyReply (trigger_id : String) (v : PyJson) :
    Except Unit UrgencyAnalysisResult :=
  match v with
  | .obj fields => do
      let score ← pyIntOf (objGetD fields ("urgency_score") (.num 1))
      .ok { is_urgent := pyTruthy (objGetD fields ("is_urgent") (.bool false))
            urgency_score := score
            push_type := objGetD fields ("push_type") (.str "none")
            push_message_ids := objGetD fields ("push_message_ids") (.arr [.str trigger_id])
            summary := objGetD fields ("summary") (.str "AI分析完成")
            key_factors := objGetD fields ("key_factors") (.arr []) }
  | _ => .error ()

/-- Downgraded result returned when the reply text is not parsable JSON
(ai_service.py, lines 119-129). -/
def downgradedAnalysis (trigger_id : String) : UrgencyAnalysisResult :=
  { is_urgent := false
    urgency_score := 3
    push_type := .str "none"
    push_message_ids := .arr [.str trigger_id]
    summary := .str "AI分析失败，默认为低优先级"
    key_factors := .arr [.str "AI解析错误"] }

/-- Keyword-weight fallback run by the outer exception handler (ai_service.py,
lines 131-144).  The Python `f"...{keyword_score:.1f}"` rendering of the
summary is abstracted by `toString` on the rational. -/
def fallbackAnalysis (trigger_id : String) (keywords : List KeywordConfig) :
    UrgencyAnalysisResult :=
  let keyword_score : ℚ := (keywords.map (fun k => k.weight)).sum
  let is_urgent := 3 ≤ keyword_score
  { is_urgent := is_urgent
    urgency_score := min 10 (max 1 (pyTrunc (keyword_score * 2)))
    push_type := .str (if is_urgent then "single" else "none")
    push_message_ids := .arr [.str trigger_id]
    summary := .str ("关键词触发 (权重:" ++ toString keyword_score ++ ")")
    key_factors := .arr (keywords.map (fun k => .str k.keyword)) }

/-- Outcome of the remote classification call as observed by the reply
handling in `analyze_urgency`: the RPC raised, `json.loads` on the reply text
raised `JSONDecodeError`, or the reply parsed to a JSON value. -/
inductive RpcOutcome where
  | transportError
  | unparsableReply
  | parsedReply (v : PyJson)

/-- Reply-handling core of `AIAnalysisService.analyze_urgency` (ai_service.py,
lines 94-144): an RPC failure runs the keyword fallback; an unparsable reply
is downgraded; a parsed reply is turned into a result, and any error raised
while doing so escapes the inner `try` and is caught by the outer handler,
which also runs the keyword fallback. -/
def analyze_urgency (trigger_id : String) (keywords : List KeywordConfig)
    (resp : RpcOutcome) : UrgencyAnalysisResult :=
  match resp with
  | .transportError => fallbackAnalysis trigger_id keywords
  | .unparsableReply => downgradedAnalysis trigger_id
  | .parsedReply v =>
      match parseUrgencyReply trigger_id v with
      | .ok r => r
      | .error _ => fallbackAnalysis trigger_id keywords

/-! ## Escalation engine dispatch (`core/realtime_alerts.py`) -/

/-- `RealtimeAlert` dataclass; `alert_content` and `context_message_ids` carry
the raw classifier fields the engine copies in. -/
structure RealtimeAlert where
  trigger_message_id : String
  chat_id : String
  chat_name : String
  alert_content : PyJson
  trigger_keywords : List String
  context_message_ids : PyJson
  urgency_score : Int

/-- What `bot.send_text` does inside `execute_push`: the call raises, or it
returns a result object that may or may not carry a `code` attribute. -/
inductive SendOutcome where
  | raises
  | returns (code : Option Int)
deriving Repr, DecidableEq

/-- `RealtimeAlertEngine.execute_push` (realtime_alerts.py, lines 119-140):
true exactly when the send result has a `code` attribute equal to 200; an
exception is caught and reported as false. -/
def execute_push (send : SendOutcome) : Bool :=
  match send with
  | .raises => false
  | .returns code => code = some 200

/-- Observable effects of `process_potential_alert` past the classifier:
how often the send collaborator was invoked and which Alert rows were handed
to `save_realtime_alert`. -/
structure DispatchTrace where
  sendCount : Nat
  alertsRecorded : List RealtimeAlert

/-- Dispatch gate of `RealtimeAlertEngine.process_potential_alert`
(realtime_alerts.py, lines 96-117), given the analysis produced for the
trigger message: push only when the analysis is urgent and its score reaches
the threshold; record the Alert row only when `execute_push` reports success.
`execute_push` calls `bot.send_text` exactly once per invocation. -/
def process_potential_alert (trigger : Message) (triggered_keywords : List KeywordConfig)
    (analysis : UrgencyAnalysisResult) (threshold : Int) (send : SendOutcome) :
    DispatchTrace :=
  if analysis.is_urgent && threshold ≤ analysis.urgency_score then
    let success := execute_push send
    if success then
      { sendCount := 1
        alertsRecorded :=
          [{ trigger_message_id := trigger.message_id
             chat_id := trigger.chat_id
             chat_name := trigger.chat_name
             alert_content := analysis.summary
             trigger_keywords := triggered_keywords.map (fun k => k.keyword)
             context_message_ids := analysis.push_message_ids
             urgency_score := analysis.urgency_score }] }
    else
      { sendCount := 1, alertsRecorded := [] }
  else
    { sendCount := 0, alertsRecorded := [] }

/-! ## Keyword cache (`RealtimeAlertEngine._get_keywords`) -/

/-- In-memory cache fields of the engine: `_keywords_cache` and
`_last_keyword_update`. -/
structure KeywordCache where
  cache : Option (List KeywordConfig)
  lastUpdate : Option Int
deriving Repr, DecidableEq

/-- Outcome of the storage read inside `DatabaseManager.get_active_keywords`. -/
inductive KeywordFetch where
  | ok (kws : List KeywordConfig)
  | dbError
deriving Repr, DecidableEq

/-- `DatabaseManager.get_active_keywords` (database.py, lines 252-264): the
active rows on success; a storage error is caught and an empty list is
returned. -/
def get_active_keywords : KeywordFetch → List KeywordConfig
  | .ok kws => kws
  | .dbError => []

/-- Five-minute cache lifetime of `_get_keywords`, in seconds. -/
def keywordCacheTtl : Int := 5 * 60

/-- Observable effects of one `_get_keywords` call. -/
structure KeywordsResult where
  keywords : List KeywordConfig
  state : KeywordCache
  refreshed : Bool
deriving Repr, DecidableEq

/-- `RealtimeAlertEngine._get_keywords` (realtime_alerts.py, lines 61-74):
refetch when the cache or its timestamp is unset or older than five minutes,
overwriting the cache with whatever `get_active_keywords` returned; otherwise
serve the cache untouched. -/
def get_keywords_cached (st : KeywordCache) (now : Int) (fetch : KeywordFetch) :
    KeywordsResult :=
  let stale :=
    match st.cache, st.lastUpdate with
    | none, _ => true
    | _, none => true
    | some _, some t => keywordCacheTtl < now - t
  if stale then
    let kws := get_active_keywords fetch
    { keywords := kws, state := { cache := some kws, lastUpdate := some now }, refreshed := true }
  else
    { keywords := st.cache.getD [], state := st, refreshed := false }

/-! ## Push-target update (`RealtimeAlertEngine.update_target_user`) -/

/-- In-memory copies of the push target: the engine field `target_user` and
the shared `config.target_user`. -/
structure TargetState where
  engine_target : String
  config_target : String
deriving Repr, DecidableEq

/-- Outcome of the `db.set_config` call as seen at the call site: it returned
true, returned false, or raised. -/
inductive PersistOutcome where
  | ok
  | fails
  | raises
deriving Repr, DecidableEq

/-- `RealtimeAlertEngine.update_target_user` (realtime_alerts.py, lines
212-233): both in-memory copies are set to the new value before persisting;
a persist call returning false rolls both back to the engine's old value; the
exception handler only logs and returns false, leaving the new value in
place. -/
def update_target_user (st : TargetState) (new_target : String)
    (persist : PersistOutcome) : Bool × TargetState :=
  let old_target := st.engine_target
  let updated : TargetState := { engine_target := new_target, config_target := new_target }
  match persist with
  | .ok => (true, updated)
  | .fails => (false, { engine_target := old_target, config_target := old_target })
  | .raises => (false, updated)

/-! ## Daily digest upsert (`DatabaseManager.save_daily_summary`) -/

/-- `DailySummary` dataclass / `daily_summaries` row payload. -/
structure DailySummary where
  date : String
  chat_id : String
  chat_name : String
  summary_content : String
  key_topics : List String
  important_events : List String
  action_items : List String
  message_count : Int
  high_value_count : Int
  source_message_ids : List String
deriving Repr, DecidableEq

/-- `DatabaseManager.save_daily_summary` (database.py, lines 286-305): INSERT
OR REPLACE against the `UNIQUE(date, chat_id)` constraint declared in
`init_database` (lines 69-85) — rows conflicting on the key are deleted and
the fresh row is inserted. -/
def save_daily_summary (tbl : List DailySummary) (s : DailySummary) :
    List DailySummary :=
  tbl.filter (fun r => !(r.date = s.date && r.chat_id = s.chat_id)) ++ [s]

/-- Number of digest rows stored under a given (date, conversation) key. -/
def digestKeyCount (tbl : List DailySummary) (d c : String) : Nat :=
  (tbl.filter (fun r => r.date = d && r.chat_id = c)).length

/-- Concrete message at a given timestamp, used by witnesses and
counterexamples. -/
def msgAt (ts : Int) : Message :=
  { message_id := "m" ++ toString ts
    chat_id := "c"
    chat_name := "cn"
    sender_id := "s"
    sender_name := "sn"
    message_type := "text"
    content := "hi"
    timestamp := ts }

/-! ## Claim theorems -/

/-- C8: the fingerprint computed at Message construction equals the
fingerprint computed by the Deduplication Store from the same fields: both are
the digest of the primary content plus the extracted text joined by a space
(extracted text excluded when empty or equal to a known failure sentinel),
stripped; the two implementations are extensionally equal functions of
(content, extracted_text). -/
theorem claim_C8 (digest : String → String) (content extracted_text : String) :
    postInitContentHash digest content extracted_text
      = calculate_content_hash digest content extracted_text ∧
    calculate_content_hash digest content extracted_text
      = digest (pyStrip (String.intercalate (" ")
          ([content] ++
            (if extracted_text = "" ∨ extracted_text ∈ failureSentinels
             then [] else [extracted_text])))) := by
  refine ⟨rfl, ?_⟩
  unfold calculate_content_hash
  by_cases h1 : extracted_text = "" <;>
    by_cases h2 : extracted_text ∈ failureSentinels <;>
      simp [h1, h2]

/-- C9: a message whose primary content is empty or whitespace-only is
reported not-duplicate and writes no DedupRecord, even with non-empty
extracted text; two such messages with identical non-empty extracted text are
both reported not-duplicate and leave the ledger untouched. -/
theorem claim_C9 (digest : String → String) (tbl : DedupTable) (m1 m2 : Message)
    (now1 now2 : Int)
    (h1 : pyStrip m1.content = "") (h2 : pyStrip m2.content = "")
    (_hsame : m1.extracted_text = m2.extracted_text)
    (_hne : m1.extracted_text ≠ "") :
    is_duplicate digest tbl m1 now1 = (false, tbl) ∧
    is_duplicate digest tbl m2 now2 = (false, tbl) := by
  constructor <;> simp [is_duplicate, h1, h2]

/-- C9 witness: two whitespace-content messages with the same non-empty
extracted text, against the empty ledger. -/
theorem claim_C9_witness :
    is_duplicate (fun s => s) []
        ⟨"m1", "c", "cn", "s", "sn", "image", " ", 0, "hello", "", false, 0⟩ 0
      = (false, []) ∧
    is_duplicate (fun s => s) []
        ⟨"m2", "c", "cn", "s", "sn", "image", " ", 5, "hello", "", false, 0⟩ 5
      = (false, []) :=
  claim_C9 (fun s => s) []
    ⟨"m1", "c", "cn", "s", "sn", "image", " ", 0, "hello", "", false, 0⟩
    ⟨"m2", "c", "cn", "s", "sn", "image", " ", 5, "hello", "", false, 0⟩
    0 5 (by decide) (by decide) (by decide) (by decide)

/-- C10 counterexample: when the persist call raises, `update_target_user`
returns false but leaves the new value in both in-memory fields — the
rollback the claim asserts does not happen. -/
theorem claim_C10_counterexample :
    update_target_user ⟨"alice", "alice"⟩ ("bob") .raises
      = (false, ⟨"bob", "bob"⟩) ∧ ("bob" : String) ≠ "alice" :=
  ⟨rfl, by decide⟩

/-- C10 (amended): the in-memory target is rolled back (and false returned)
exactly when the persist call reports failure by returning false; a successful
persist keeps the new value and returns true; if the persist call raises, the
call still returns false but the new value stays in memory — no rollback. -/
theorem claim_C10 (st : TargetState) (new_target : String) :
    update_target_user st new_target .ok = (true, ⟨new_target, new_target⟩) ∧
    update_target_user st new_target .fails
      = (false, ⟨st.engine_target, st.engine_target⟩) ∧
    update_target_user st new_target .raises = (false, ⟨new_target, new_target⟩) :=
  ⟨rfl, rfl, rfl⟩

/-- C5: an Alert record is handed to the store iff the analysis is urgent, its
score reaches the threshold, and the send reports success; the send
collaborator is invoked exactly once when the gate passes (a failed send is
not retried) and never otherwise; at most one Alert is recorded per call. -/
theorem claim_C5 (trigger : Message) (kws : List KeywordConfig)
    (analysis : UrgencyAnalysisResult) (threshold : Int) (send : SendOutcome) :
    ((process_potential_alert trigger kws analysis threshold send).alertsRecorded.length = 1
      ↔ (analysis.is_urgent = true ∧ threshold ≤ analysis.urgency_score ∧
          execute_push send = true)) ∧
    (process_potential_alert trigger kws analysis threshold send).sendCount
      = (if analysis.is_urgent ∧ threshold ≤ analysis.urgency_score then 1 else 0) ∧
    (process_potential_alert trigger kws analysis threshold send).alertsRecorded.length ≤ 1 := by
  unfold process_potential_alert
  by_cases hu : analysis.is_urgent = true <;>
    by_cases ht : threshold ≤ analysis.urgency_score <;>
      by_cases hs : execute_push send = true <;>
        simp [hu, ht, hs]

/-- C5 witness: urgent score-8 analysis against threshold 6 with a send
returning code 200 — exactly one Alert and one send. -/
theorem claim_C5_witness :
    ((process_potential_alert (msgAt 0) []
        ⟨true, 8, .str "single", .arr [], .str "s", .arr []⟩ 6
        (.returns (some 200))).alertsRecorded.length = 1
      ↔ ((true : Bool) = true ∧ (6 : ℤ) ≤ 8 ∧
          execute_push (.returns (some 200)) = true)) ∧
    (process_potential_alert (msgAt 0) []
        ⟨true, 8, .str "single", .arr [], .str "s", .arr []⟩ 6
        (.returns (some 200))).sendCount
      = (if (true : Bool) = true ∧ (6 : ℤ) ≤ 8 then 1 else 0) ∧
    (process_potential_alert (msgAt 0) []
        ⟨true, 8, .str "single", .arr [], .str "s", .arr []⟩ 6
        (.returns (some 200))).alertsRecorded.length ≤ 1 :=
  claim_C5 (msgAt 0) [] ⟨true, 8, .str "single", .arr [], .str "s", .arr []⟩ 6
    (.returns (some 200))

/-- Preservation step for the digest-key invariant: one `save_daily_summary`
keeps every (date, conversation) key at no more than one row. -/
theorem digestKeyCount_save_le (tbl : List DailySummary) (s : DailySummary)
    (hinv : ∀ d c, digestKeyCount tbl d c ≤ 1) (d c : String) :
    digestKeyCount (save_daily_summary tbl s) d c ≤ 1 := by
  unfold digestKeyCount save_daily_summary
  rw [List.filter_append]
  by_cases hk : d = s.date ∧ c = s.chat_id
  · obtain ⟨hd, hc⟩ := hk
    rw [hd, hc]
    have hleft :
        List.filter (fun r => r.date = s.date && r.chat_id = s.chat_id)
          (List.filter (fun r => !(r.date = s.date && r.chat_id = s.chat_id)) tbl) = [] := by
      rw [List.filter_eq_nil_iff]
      intro a ha hpa
      have hna := List.of_mem_filter ha
      rw [hpa] at hna
      exact absurd hna (by decide)
    rw [hleft]
    simp
  · have hright :
        List.filter (fun r => r.date = d && r.chat_id = c) [s] = [] := by
      rw [List.filter_eq_nil_iff]
      intro a ha hpa
      rw [List.mem_singleton] at ha
      subst ha
      simp only [Bool.and_eq_true, decide_eq_true_eq] at hpa
      exact hk ⟨hpa.1.symm, hpa.2.symm⟩
    rw [hright, List.append_nil]
    have hsub :
        List.Sublist
          (List.filter (fun r => r.date = d && r.chat_id = c)
            (List.filter (fun r => !(r.date = s.date && r.chat_id = s.chat_id)) tbl))
          (List.filter (fun r => r.date = d && r.chat_id = c) tbl) :=
      List.Sublist.filter _ (List.filter_sublist tbl)
    exact le_trans hsub.length_le (hinv d c)

/-- C7: the digest table holds at most one row per (date, conversation) across
any sequence of saves, and saving twice for the same key leaves exactly one
row for that key, carrying the latest content. -/
theorem claim_C7 (tbl : List DailySummary) (saves : List DailySummary)
    (s1 s2 : DailySummary)
    (hinv : ∀ d c, digestKeyCount tbl d c ≤ 1)
    (_hdate : s1.date = s2.date) (_hchat : s1.chat_id = s2.chat_id) :
    (∀ d c, digestKeyCount (saves.foldl save_daily_summary tbl) d c ≤ 1) ∧
    (save_daily_summary (save_daily_summary tbl s1) s2).filter
        (fun r => r.date = s2.date && r.chat_id = s2.chat_id) = [s2] := by
  constructor
  · induction saves generalizing tbl with
    | nil => exact hinv
    | cons s rest ih =>
        intro d c
        exact ih (save_daily_summary tbl s) (digestKeyCount_save_le tbl s hinv) d c
  · unfold save_daily_summary
    rw [List.filter_append]
    have hnil :
        List.filter (fun r => r.date = s2.date && r.chat_id = s2.chat_id)
          (List.filter (fun r => !(r.date = s2.date && r.chat_id = s2.chat_id))
            (List.filter (fun r => !(r.date = s1.date && r.chat_id = s1.chat_id)) tbl ++ [s1]))
          = [] := by
      rw [List.filter_eq_nil_iff]
      intro a ha hpa
      have hna := List.of_mem_filter ha
      rw [hpa] at hna
      exact absurd hna (by decide)
    rw [hnil]
    simp

/-- Concrete digest row used by witnesses, keyed (2024-01-15, c). -/
def digestWith (content : String) : DailySummary :=
  { date := "2024-01-15", chat_id := "c", chat_name := "cn"
    summary_content := content, key_topics := [], important_events := []
    action_items := [], message_count := 1, high_value_count := 0
    source_message_ids := [] }

/-- C7 witness: saving twice for the key (2024-01-15, c) starting from the
empty table leaves exactly the second row for that key. -/
theorem claim_C7_witness :
    (save_daily_summary (save_daily_summary [] (digestWith ("first"))) (digestWith ("second"))).filter
        (fun r => r.date = (digestWith ("second")).date && r.chat_id = (digestWith ("second")).chat_id)
      = [digestWith ("second")] :=
  (claim_C7 [] [] (digestWith ("first")) (digestWith ("second"))
      (fun _ _ => by simp [digestKeyCount]) rfl rfl).2

/-- Evaluation of the keyword fallback on the spec's example pair of weight-2
keywords: the summed weight 4 makes the result urgent with score 8. -/
theorem fallbackWeightPairEval (trigger_id : String) :
    (fallbackAnalysis trigger_id
        [⟨"紧急", "urgent", 2, true⟩, ⟨"deadline", "urgent", 2, true⟩]).is_urgent = true ∧
    (fallbackAnalysis trigger_id
        [⟨"紧急", "urgent", 2, true⟩, ⟨"deadline", "urgent", 2, true⟩]).urgency_score = 8 := by
  have hsum :
      (([⟨"紧急", "urgent", 2, true⟩, ⟨"deadline", "urgent", 2, true⟩] :
          List KeywordConfig).map (fun kw => kw.weight)).sum = (4 : ℚ) := by
    simp
    norm_num
  have hnum : ((4 : ℚ) * 2).num = 8 := by norm_num
  have hden : ((4 : ℚ) * 2).den = 1 := by norm_num
  have htr : pyTrunc ((4 : ℚ) * 2) = 8 := by
    unfold pyTrunc
    rw [hnum, hden]
    decide
  constructor
  · simp [fallbackAnalysis, hsum]
    norm_num
  · simp [fallbackAnalysis]
    rw [show ((2 : ℚ) + 2) = 4 by norm_num, htr]
    decide

/-- C3 counterexample: a single matched keyword of weight 3/4 makes the code's
fallback score min(10, max(1, int(0.75×2))) = 1, while the claimed formula
clamp(round(0.75×2), 1, 10) gives 2 — Python `int()` truncates, it does not
round. -/
theorem claim_C3_counterexample :
    (analyze_urgency ("m1") [⟨"项目", "work", 3/4, true⟩] .transportError).urgency_score = 1 ∧
    min 10 (max 1 (pyRound (((3 : ℚ)/4) * 2))) = 2 ∧
    ((1 : ℤ) ≠ 2) := by
  have hnum : (((3 : ℚ)/4) * 2).num = 3 := by norm_num
  have hden : (((3 : ℚ)/4) * 2).den = 2 := by norm_num
  have htr : pyTrunc (((3 : ℚ)/4) * 2) = 1 := by
    unfold pyTrunc
    rw [hnum, hden]
    decide
  refine ⟨?_, ?_, by decide⟩
  · simp [analyze_urgency, fallbackAnalysis, htr]
  · unfold pyRound
    rw [hnum, hden]
    have hfl : Int.fdiv 3 ((2 : ℕ) : ℤ) = 1 := by decide
    rw [hfl]
    have hfrac : ((3 : ℚ)/4) * 2 - ((1 : ℤ) : ℚ) = 1/2 := by norm_num
    simp only [hfrac]
    norm_num

/-- C3 (amended): on outright RPC failure with a non-empty matched-keyword
set, the fallback is: urgent iff the summed weights reach 3.0;
urgency_score = clamp(trunc(sum×2), 1, 10), where trunc is Python `int()`
truncation toward zero (not rounding); push_type = single if urgent else
none; in particular weights 2.0 and 2.0 yield urgent=true and score 8. -/
theorem claim_C3 (trigger_id : String) (k : KeywordConfig) (ks : List KeywordConfig) :
    (analyze_urgency trigger_id (k :: ks) .transportError).is_urgent
      = decide (3 ≤ ((k :: ks).map (fun kw => kw.weight)).sum) ∧
    (analyze_urgency trigger_id (k :: ks) .transportError).urgency_score
      = min 10 (max 1 (pyTrunc ((((k :: ks).map (fun kw => kw.weight)).sum) * 2))) ∧
    (analyze_urgency trigger_id (k :: ks) .transportError).push_type
      = .str (if 3 ≤ ((k :: ks).map (fun kw => kw.weight)).sum then "single" else "none") ∧
    (analyze_urgency trigger_id
        [⟨"紧急", "urgent", 2, true⟩, ⟨"deadline", "urgent", 2, true⟩]
        .transportError).is_urgent = true ∧
    (analyze_urgency trigger_id
        [⟨"紧急", "urgent", 2, true⟩, ⟨"deadline", "urgent", 2, true⟩]
        .transportError).urgency_score = 8 := by
  refine ⟨rfl, rfl, ?_, (fallbackWeightPairEval trigger_id).1, (fallbackWeightPairEval trigger_id).2⟩
  by_cases h : (3 : ℚ) ≤ ((k :: ks).map (fun kw => kw.weight)).sum <;>
    simp [analyze_urgency, fallbackAnalysis, h]

/-- C4 (amended): a reply whose text fails JSON parsing is deterministically
downgraded to is_urgent=false, urgency_score=3, push_type=none, with no retry
and no exception; a reply that parses as JSON but is not an object with the
expected field types falls through to the keyword-weight fallback instead. -/
theorem claim_C4 (trigger_id : String) (keywords : List KeywordConfig) :
    analyze_urgency trigger_id keywords .unparsableReply = downgradedAnalysis trigger_id ∧
    (analyze_urgency trigger_id keywords .unparsableReply).is_urgent = false ∧
    (analyze_urgency trigger_id keywords .unparsableReply).urgency_score = 3 ∧
    (analyze_urgency trigger_id keywords .unparsableReply).push_type = PyJson.str "none" :=
  ⟨rfl, rfl, rfl, rfl⟩

/-- C4 counterexample: a malformed reply that is still well-formed JSON — the
array `[]` — does not produce the claimed downgrade: with matched keywords of
weights 2.0 and 2.0 the construction error lands in the outer handler's
keyword fallback, which reports urgent with score 8 (the downgrade would be
non-urgent score 3). -/
theorem claim_C4_counterexample :
    (analyze_urgency ("m1")
        [⟨"紧急", "urgent", 2, true⟩, ⟨"deadline", "urgent", 2, true⟩]
        (.parsedReply (.arr []))).is_urgent = true ∧
    (analyze_urgency ("m1")
        [⟨"紧急", "urgent", 2, true⟩, ⟨"deadline", "urgent", 2, true⟩]
        (.parsedReply (.arr []))).urgency_score = 8 ∧
    (downgradedAnalysis ("m1")).is_urgent = false ∧
    (downgradedAnalysis ("m1")).urgency_score = 3 ∧
    ((8 : ℤ) ≠ 3) := by
  have h := fallbackWeightPairEval ("m1")
  exact ⟨h.1, h.2, rfl, rfl, by decide⟩

/-- C6 counterexample: with a good cached keyword in place but the 5-minute
lifetime expired, a failing refresh does not keep serving the last good cache
— the match call is served the empty set, which also replaces the cache. -/
theorem claim_C6_counterexample :
    (get_keywords_cached
        ⟨some [⟨"紧急", "urgent", 2, true⟩], some 0⟩ 1000 .dbError).keywords = [] ∧
    (get_keywords_cached
        ⟨some [⟨"紧急", "urgent", 2, true⟩], some 0⟩ 1000 .dbError).state.cache = some [] ∧
    ([] : List KeywordConfig) ≠ [⟨"紧急", "urgent", 2, true⟩] := by
  refine ⟨?_, ?_, by simp⟩ <;> rfl

/-- C6 (amended): the keyword set is refreshed at most once per 5-minute
interval — after a call that refreshed, no call within the next 5 minutes
refreshes again — but a failed refresh does not keep the last good cache: the
match call is served the empty keyword set (without raising), and the empty
set overwrites the cache. -/
theorem claim_C6 (st : KeywordCache) (now now' : Int) (fetch' : KeywordFetch)
    (href : (get_keywords_cached st now .dbError).refreshed = true)
    (hgap : now' - now ≤ keywordCacheTtl) :
    (get_keywords_cached st now .dbError).keywords = [] ∧
    (get_keywords_cached st now .dbError).state.cache = some [] ∧
    (get_keywords_cached (get_keywords_cached st now .dbError).state now' fetch').refreshed
      = false := by
  rcases st with ⟨cache, lastUpdate⟩
  have hnot : ¬ keywordCacheTtl < now' - now := not_lt.mpr hgap
  rcases cache with _ | kws <;> rcases lastUpdate with _ | t
  · simp [get_keywords_cached, get_active_keywords, hnot]
  · simp [get_keywords_cached, get_active_keywords, hnot]
  · simp [get_keywords_cached, get_active_keywords, hnot]
  · by_cases h1 : keywordCacheTtl < now - t
    · simp [get_keywords_cached, get_active_keywords, h1, hnot]
    · simp [get_keywords_cached, h1] at href

/-- C6 witness: an unfilled cache forces the first refresh at time 0; the
failing refresh serves the empty set and a second call 100 seconds later does
not refresh. -/
theorem claim_C6_witness :
    (get_keywords_cached ⟨none, none⟩ 0 .dbError).keywords = [] ∧
    (get_keywords_cached ⟨none, none⟩ 0 .dbError).state.cache = some [] ∧
    (get_keywords_cached (get_keywords_cached ⟨none, none⟩ 0 .dbError).state 100 (.ok [])).refreshed
      = false :=
  claim_C6 ⟨none, none⟩ 0 100 (.ok []) (by rfl) (by decide)

/-- C1 counterexample: a message the dedup store reports as duplicate is not
persisted — the pipeline returns before `save_message`, leaving the message
store empty. -/
theorem claim_C1_counterexample :
    (is_duplicate (fun s => s) [⟨"hi", "m0", 1, 50⟩] (msgAt 60) 100).1 = true ∧
    (process_message (fun s => s) ⟨[⟨"hi", "m0", 1, 50⟩], []⟩ (msgAt 60) 100 true).state.messages
      = [] ∧
    msgAt 60 ∉
      (process_message (fun s => s) ⟨[⟨"hi", "m0", 1, 50⟩], []⟩ (msgAt 60) 100 true).state.messages := by
  refine ⟨by decide, by decide, by decide⟩

/-- C1 (amended): for every inbound message that the Deduplication Store
reports as duplicate, processing stops before persistence as well as before
escalation — the message store is left unchanged (the duplicate is not saved)
and no escalation runs. -/
theorem claim_C1 (digest : String → String) (st : PipelineState) (msg : Message)
    (now : Int) (storageOk : Bool)
    (hdup : (is_duplicate digest st.dedup msg now).1 = true) :
    (process_message digest st msg now storageOk).state.messages = st.messages ∧
    (process_message digest st msg now storageOk).escalationRan = false ∧
    (process_message digest st msg now storageOk).outcome = .duplicateFiltered := by
  unfold process_message
  rcases hp : is_duplicate digest st.dedup msg now with ⟨dup, dedup'⟩
  rw [hp] at hdup
  simp only at hdup
  subst hdup
  simp

/-- C1 witness: the duplicate message of the counterexample configuration,
with a working store. -/
theorem claim_C1_witness :
    (process_message (fun s => s) ⟨[⟨"hi", "m0", 1, 50⟩], []⟩ (msgAt 60) 100 true).state.messages
      = [] ∧
    (process_message (fun s => s) ⟨[⟨"hi", "m0", 1, 50⟩], []⟩ (msgAt 60) 100 true).escalationRan
      = false ∧
    (process_message (fun s => s) ⟨[⟨"hi", "m0", 1, 50⟩], []⟩ (msgAt 60) 100 true).outcome
      = .duplicateFiltered :=
  claim_C1 (fun s => s) ⟨[⟨"hi", "m0", 1, 50⟩], []⟩ (msgAt 60) 100 true (by decide)

/-- Last `n` elements of a list in order — the specification's reading of
"the most-recent `limit` messages", used to exhibit the C2 counterexample. -/
def takeLast (n : Nat) (l : List Message) : List Message :=
  (l.reverse.take n).reverse

/-- C2 counterexample: three same-day messages with timestamps 1, 2, 3 and
limit 2 — the query returns the first two (`ORDER BY timestamp ASC LIMIT 2`),
not the last two that the claim demands. -/
theorem claim_C2_counterexample :
    get_messages_by_date_range [msgAt 1, msgAt 2, msgAt 3] ("c") 0 10 (some 2)
      = [msgAt 1, msgAt 2] ∧
    takeLast 2 (dateRangeRows [msgAt 1, msgAt 2, msgAt 3] ("c") 0 10)
      = [msgAt 2, msgAt 3] ∧
    ([msgAt 1, msgAt 2] : List Message) ≠ [msgAt 2, msgAt 3] := by
  refine ⟨by decide, by decide, by decide⟩

/-- C2 (amended): with a non-zero limit the Context Assembler returns the
earliest (not the most-recent) same-day messages: the result is sorted
oldest-first, contains only messages of the conversation inside the inclusive
range, has length min(limit, total), and every returned message is no later
than every same-day message left out. -/
theorem claim_C2 (tbl : List Message) (chat_id : String)
    (start_date end_date : Int) (n : Nat) :
    List.Sorted tsLe
      (get_messages_by_date_range tbl chat_id start_date end_date (some (n+1))) ∧
    (∀ m ∈ get_messages_by_date_range tbl chat_id start_date end_date (some (n+1)),
        m.chat_id = chat_id ∧ start_date ≤ m.timestamp ∧ m.timestamp ≤ end_date) ∧
    (get_messages_by_date_range tbl chat_id start_date end_date (some (n+1))).length
      = min (n+1) (dateRangeRows tbl chat_id start_date end_date).length ∧
    (∀ x ∈ get_messages_by_date_range tbl chat_id start_date end_date (some (n+1)),
      ∀ y ∈ dateRangeRows tbl chat_id start_date end_date,
        y ∉ get_messages_by_date_range tbl chat_id start_date end_date (some (n+1)) →
          x.timestamp ≤ y.timestamp) := by
  have hres : get_messages_by_date_range tbl chat_id start_date end_date (some (n+1))
      = (dateRangeRows tbl chat_id start_date end_date).take (n+1) := by
    simp [get_messages_by_date_range]
  have hsorted : List.Sorted tsLe (dateRangeRows tbl chat_id start_date end_date) := by
    unfold dateRangeRows
    exact List.sorted_insertionSort tsLe _
  refine ⟨?_, ?_, ?_, ?_⟩
  · rw [hres]
    exact hsorted.sublist (List.take_sublist _ _)
  · intro m hm
    rw [hres] at hm
    have hm' : m ∈ dateRangeRows tbl chat_id start_date end_date :=
      List.take_subset _ _ hm
    unfold dateRangeRows at hm'
    have hmf := (List.perm_insertionSort tsLe _).mem_iff.mp hm'
    have hcond := List.of_mem_filter hmf
    simp only [Bool.and_eq_true, decide_eq_true_eq] at hcond
    exact ⟨hcond.1.1, hcond.1.2, hcond.2⟩
  · rw [hres]
    exact List.length_take _ _
  · intro x hx y hy hyn
    rw [hres] at hx hyn
    have hpw : List.Pairwise tsLe
        ((dateRangeRows tbl chat_id start_date end_date).take (n+1) ++
          (dateRangeRows tbl chat_id start_date end_date).drop (n+1)) := by
      rw [List.take_append_drop]
      exact hsorted
    obtain ⟨-, -, hcross⟩ := List.pairwise_append.mp hpw
    have hy' : y ∈ (dateRangeRows tbl chat_id start_date end_date).take (n+1) ++
        (dateRangeRows tbl chat_id start_date end_date).drop (n+1) := by
      rw [List.take_append_drop]
      exact hy
    rcases List.mem_append.mp hy' with h | h
    · exact absurd h hyn
    · exact hcross x hx y h

/-- C2 witness: the amended properties instantiated at the three-message
table of the counterexample with limit 2. -/
theorem claim_C2_witness :
    List.Sorted tsLe
      (get_messages_by_date_range [msgAt 1, msgAt 2, msgAt 3] ("c") 0 10 (some 2)) ∧
    (∀ m ∈ get_messages_by_date_range [msgAt 1, msgAt 2, msgAt 3] ("c") 0 10 (some 2),
        m.chat_id = "c" ∧ 0 ≤ m.timestamp ∧ m.timestamp ≤ 10) ∧
    (get_messages_by_date_range [msgAt 1, msgAt 2, msgAt 3] ("c") 0 10 (some 2)).length
      = min 2 (dateRangeRows [msgAt 1, msgAt 2, msgAt 3] ("c") 0 10).length ∧
    (∀ x ∈ get_messages_by_date_range [msgAt 1, msgAt 2, msgAt 3] ("c") 0 10 (some 2),
      ∀ y ∈ dateRangeRows [msgAt 1, msgAt 2, msgAt 3] ("c") 0 10,
        y ∉ get_messages_by_date_range [msgAt 1, msgAt 2, msgAt 3] ("c") 0 10 (some 2) →
          x.timestamp ≤ y.timestamp) :=
  claim_C2 [msgAt 1, msgAt 2, msgAt 3] ("c") 0 10 1

end WeChatSummaryBot
